import Mathlib

/-!
# FlipperHTTP for the Raspberry Pi Pico 2 W: a verification development

Shallow embedding of `FlipperHTTPPico2W.h`.

The header declares the class `FlipperHTTP`: its data members with their default
initialisers, the constructor, the member functions `getIPAddress` and
`isConnectedToWifi` with their inline bodies, and the pinned root certificate.  These
are embedded from the header.  The other member functions used below are only declared
there; each of them is modelled from the specification and its doc comment says so.

Conventions: a C `char` is a `Char` and one list element stands for one byte, so the
length of a `List Char` is the byte length of the text; the NUL byte is `'\x00'`.
-/

namespace FlipperHTTPPico2W

/-! ## C strings in fixed-size `char` arrays -/

/-- The NUL byte that terminates a C string. -/
def NUL : Char := '\x00'

/-- A text contains no NUL byte, so it can be the content of a C string. -/
def nulFree (s : List Char) : Prop := ∀ c ∈ s, c ≠ NUL

instance (s : List Char) : Decidable (nulFree s) := by
  unfold nulFree; infer_instance

/-- Read a `char` array as a terminated string: the bytes before the first NUL.
There is no result when the array holds no NUL at all, since the read would then run
past the end of the array. -/
def readCString : List Char → Option (List Char)
  | [] => none
  | c :: cs => if c = NUL then some [] else (readCString cs).map (c :: ·)

/-- Store `s` as a terminated string at the start of the array `dst`: the bytes of `s`,
then the NUL, the rest of the array untouched.  There is no result when `s` and its
terminator do not fit, since the write would then run past the end of the array. -/
def storeCString (dst s : List Char) : Option (List Char) :=
  if s.length + 1 ≤ dst.length then some (s ++ NUL :: dst.drop (s.length + 1)) else none

/-- Bounded copy into a `char` array (the `strlcpy` discipline): at most
`dst.length - 1` bytes of `s` are copied and the result is always terminated. -/
def copyBounded (dst s : List Char) : List Char :=
  match storeCString dst (s.take (dst.length - 1)) with
  | some d => d
  | none => dst

/-! ## The class `FlipperHTTP` -/

/-- Size of each credentials field: `char loadedSSID[64]`, `char loadedPassword[64]`. -/
def credentialFieldSize : Nat := 64

/-- The pinned root certificate, `root_ca`: the adjacent string literals of the header,
concatenated. -/
def root_ca : String :=
  "-----BEGIN CERTIFICATE-----\n" ++
  "MIIFazCCA1OgAwIBAgIRAIIQz7DSQONZRGPgu2OCiwAwDQYJKoZIhvcNAQELBQAw\n" ++
  "TzELMAkGA1UEBhMCVVMxKTAnBgNVBAoTIEludGVybmV0IFNlY3VyaXR5IFJlc2Vh\n" ++
  "cmNoIEdyb3VwMRUwEwYDVQQDEwxJU1JHIFJvb3QgWDEwHhcNMTUwNjA0MTEwNDM4\n" ++
  "WhcNMzUwNjA0MTEwNDM4WjBPMQswCQYDVQQGEwJVUzEpMCcGA1UEChMgSW50ZXJu\n" ++
  "ZXQgU2VjdXJpdHkgUmVzZWFyY2ggR3JvdXAxFTATBgNVBAMTDElTUkcgUm9vdCBY\n" ++
  "MTCCAiIwDQYJKoZIhvcNAQEBBQADggIPADCCAgoCggIBAK3oJHP0FDfzm54rVygc\n" ++
  "h77ct984kIxuPOZXoHj3dcKi/vVqbvYATyjb3miGbESTtrFj/RQSa78f0uoxmyF+\n" ++
  "0TM8ukj13Xnfs7j/EvEhmkvBioZxaUpmZmyPfjxwv60pIgbz5MDmgK7iS4+3mX6U\n" ++
  "A5/TR5d8mUgjU+g4rk8Kb4Mu0UlXjIB0ttov0DiNewNwIRt18jA8+o+u3dpjq+sW\n" ++
  "T8KOEUt+zwvo/7V3LvSye0rgTBIlDHCNAymg4VMk7BPZ7hm/ELNKjD+Jo2FR3qyH\n" ++
  "B5T0Y3HsLuJvW5iB4YlcNHlsdu87kGJ55tukmi8mxdAQ4Q7e2RCOFvu396j3x+UC\n" ++
  "B5iPNgiV5+I3lg02dZ77DnKxHZu8A/lJBdiB3QW0KtZB6awBdpUKD9jf1b0SHzUv\n" ++
  "KBds0pjBqAlkd25HN7rOrFleaJ1/ctaJxQZBKT5ZPt0m9STJEadao0xAH0ahmbWn\n" ++
  "OlFuhjuefXKnEgV4We0+UXgVCwOPjdAvBbI+e0ocS3MFEvzG6uBQE3xDk3SzynTn\n" ++
  "jh8BCNAw1FtxNrQHusEwMFxIt4I7mKZ9YIqioymCzLq9gwQbooMDQaHWBfEbwrbw\n" ++
  "qHyGO0aoSCqI3Haadr8faqU9GY/rOPNk3sgrDQoo//fb4hVC1CLQJ13hef4Y53CI\n" ++
  "rU7m2Ys6xt0nUW7/vGT1M0NPAgMBAAGjQjBAMA4GA1UdDwEB/wQEAwIBBjAPBgNV\n" ++
  "HRMBAf8EBTADAQH/MB0GA1UdDgQWBBR5tFnme7bl5AFzgAiIyBpY9umbbjANBgkq\n" ++
  "hkiG9w0BAQsFAAOCAgEAVR9YqbyyqFDQDLHYGmkgJykIrGF1XIpu+ILlaS/V9lZL\n" ++
  "ubhzEFnTIZd+50xx+7LSYK05qAvqFyFWhfFQDlnrzuBZ6brJFe+GnY+EgPbk6ZGQ\n" ++
  "3BebYhtF8GaV0nxvwuo77x/Py9auJ/GpsMiu/X1+mvoiBOv/2X/qkSsisRcOj/KK\n" ++
  "NFtY2PwByVS5uCbMiogziUwthDyC3+6WVwW6LLv3xLfHTjuCvjHIInNzktHCgKQ5\n" ++
  "ORAzI4JMPJ+GslWYHb4phowim57iaztXOoJwTdwJx4nLCgdNbOhdjsnvzqvHu7Ur\n" ++
  "TkXWStAmzOVyyghqpZXjFaH3pO3JLF+l+/+sKAIuvtd7u+Nxe5AW0wdeRlN8NwdC\n" ++
  "jNPElpzVmbUq4JUagEiuTDkHzsxHpFKVK7q4+63SM1N95R1NbdWhscdCb+ZAJzVc\n" ++
  "oyi3B43njTOQ5yOf+1CceWxG1bQVs5ZufpsMljq4Ui0/1lvh+wjChP4kqKOJ2qxq\n" ++
  "4RgqsahDYVvTH9w7jXbyLeiNdd8XM2w9U/t7y0Ff/9yi0GE44Za4rF2LN9d11TPA\n" ++
  "mRGunUHBcnWEvgJBQl9nJEiU0Zsnvgc/ubhPgXRR4Xq37Z0j4r7g1SgEEzwxA57d\n" ++
  "emyPxgcYxn/eR44/KJ4EBs+lVDR3veyJm+kXQ99b21/+jh5Xos1AnX5iItreGCc=\n" ++
  "-----END CERTIFICATE-----\n"

/-- The data members of a `FlipperHTTP` object that hold plain data.  The transport
handle `client` and the serial port `SerialPico` are devices, kept outside the record. -/
structure FlipperHTTP where
  /-- Path to the settings file: `const char *settingsFilePath`. -/
  settingsFilePath : String
  /-- Stored SSID: `char loadedSSID[64]`. -/
  loadedSSID : List Char
  /-- Stored password: `char loadedPassword[64]`. -/
  loadedPassword : List Char
  /-- Whether the LED is used: `bool useLED`. -/
  useLED : Bool
deriving DecidableEq

namespace FlipperHTTP

/-- The default member initialisers of the class:
`settingsFilePath = "/flipper-http.json"`, `loadedSSID[64] = {0}`,
`loadedPassword[64] = {0}`, `useLED = true`. -/
def memberDefaults : FlipperHTTP where
  settingsFilePath := "/flipper-http.json"
  loadedSSID := List.replicate credentialFieldSize NUL
  loadedPassword := List.replicate credentialFieldSize NUL
  useLED := true

/-- The body of the constructor `FlipperHTTP() { }`: empty. -/
def ctorBody (self : FlipperHTTP) : FlipperHTTP := self

/-- Construction of an object: the default member initialisers, then the constructor
body. -/
def construct : FlipperHTTP := ctorBody memberDefaults

/-- Both credentials fields have their declared size. -/
def WellFormed (self : FlipperHTTP) : Prop :=
  self.loadedSSID.length = credentialFieldSize ∧
  self.loadedPassword.length = credentialFieldSize

instance (self : FlipperHTTP) : Decidable (WellFormed self) := by
  unfold WellFormed; infer_instance

/-- Store a text as a terminated string in `loadedSSID`. -/
def storeSSID (self : FlipperHTTP) (s : List Char) : Option FlipperHTTP :=
  (storeCString self.loadedSSID s).map (fun f => { self with loadedSSID := f })

/-- Store a text as a terminated string in `loadedPassword`. -/
def storePassword (self : FlipperHTTP) (s : List Char) : Option FlipperHTTP :=
  (storeCString self.loadedPassword s).map (fun f => { self with loadedPassword := f })

end FlipperHTTP

/-! ## The wireless interface read by the inline member functions -/

/-- An IPv4 address, four octets: what `WiFi.localIP()` returns. -/
structure IPAddress where
  o1 : Nat
  o2 : Nat
  o3 : Nat
  o4 : Nat
deriving DecidableEq

/-- The textual form of an address, `IPAddress::toString()`: the four octets in decimal,
separated by dots.  The function belongs to the board's core library, not to this
repository; its documented output is followed here. -/
def IPAddress.toString (ip : IPAddress) : String :=
  Nat.repr ip.o1 ++ "." ++ Nat.repr ip.o2 ++ "." ++ Nat.repr ip.o3 ++ "." ++ Nat.repr ip.o4

/-- The part of the global `WiFi` object that the class reads: the link status
(`WiFi.status()`, a `wl_status_t` value taken as its integer) and the local address
(`WiFi.localIP()`). -/
structure WiFiClass where
  status : Nat
  localIP : IPAddress
deriving DecidableEq

/-- `bool isConnectedToWifi() { return WiFi.status() == WL_CONNECTED; }`.
The constant `WL_CONNECTED` comes from the core library and is a parameter.  The result
is paired with the object as the call leaves it. -/
def isConnectedToWifi (WL_CONNECTED : Nat) (WiFi : WiFiClass) (self : FlipperHTTP) :
    Bool × FlipperHTTP :=
  (WiFi.status == WL_CONNECTED, self)

/-- `String getIPAddress() { return WiFi.localIP().toString(); }`. -/
def getIPAddress (WiFi : WiFiClass) (_self : FlipperHTTP) : String :=
  WiFi.localIP.toString

/-! ## Reading the pinned certificate line by line -/

/-- The newline-terminated lines of a text, terminators stripped; `acc` holds the
current line in reverse.  Bytes after the last newline form a final line. -/
def splitLinesAux : List Char → List Char → List (List Char)
  | acc, [] => if acc = [] then [] else [acc.reverse]
  | acc, c :: cs =>
    if c = '\n' then acc.reverse :: splitLinesAux [] cs else splitLinesAux (c :: acc) cs

/-- The lines of a text. -/
def splitLines (s : String) : List (List Char) := splitLinesAux [] s.toList

/-- The PEM line that opens a certificate. -/
def pemBegin : List Char := "-----BEGIN CERTIFICATE-----".toList

/-- The PEM line that closes a certificate. -/
def pemEnd : List Char := "-----END CERTIFICATE-----".toList

/-- A character of the base64 alphabet. -/
def isBase64Char (c : Char) : Bool :=
  c.isAlphanum || c == '+' || c == '/'

/-- Remove up to `n` trailing padding characters `=` from a reversed line. -/
def dropPadding : Nat → List Char → List Char
  | 0, l => l
  | _ + 1, [] => []
  | n + 1, c :: cs => if c = '=' then dropPadding n cs else c :: cs

/-- A non-empty base64 line of at most 64 characters: characters of the alphabet,
followed by at most two padding characters. -/
def isBase64Line (l : List Char) : Bool :=
  !l.isEmpty && decide (l.length ≤ 64) && (dropPadding 2 l.reverse).all isBase64Char

/-- The lines strictly between the first and the last line. -/
def innerLines (ls : List (List Char)) : List (List Char) := (ls.drop 1).dropLast

/-! ## The settings store

`loadWifiSettings` and `saveWifiSettings` are declared in the header and defined
elsewhere.  They are modelled from the specification (§3, §4.2, §6, §7), on top of the
credentials fields the header declares. -/

/-- Modelled from the spec: the record `WifiCredentials`, `{ssid, password}`, of the data
model (§3). -/
structure WifiCredentials where
  ssid : List Char
  password : List Char
deriving DecidableEq

/-- Modelled from the spec: the empty credentials value returned by a failed load. -/
def WifiCredentials.empty : WifiCredentials := ⟨[], []⟩

/-- Modelled from the spec: the length limit of the data model, "ssid: text ≤64 bytes,
password: text ≤64 bytes" (§3). -/
def WifiCredentials.withinLimit (c : WifiCredentials) : Prop :=
  c.ssid.length ≤ 64 ∧ c.password.length ≤ 64

instance (c : WifiCredentials) : Decidable c.withinLimit := by
  unfold WifiCredentials.withinLimit; infer_instance

/-- The flash file system as the class sees it: the content of the file at each path,
if there is one.  Its block-level behaviour is outside the scope of the
specification (§1); every write completes. -/
abbrev FileSystem := String → Option (List Char)

/-- Overwrite the file at `path` with `data`; the second component is the number of
bytes written. -/
def FileSystem.write (fs : FileSystem) (path : String) (data : List Char) :
    FileSystem × Nat :=
  (fun p => if p = path then some data else fs p, data.length)

/-- Remove the literal `lit` from the front of `input`; no result when `input` does not
start with it. -/
def stripLiteral : List Char → List Char → Option (List Char)
  | [], input => some input
  | _ :: _, [] => none
  | l :: ls, c :: cs => if l = c then stripLiteral ls cs else none

/-- Modelled from the spec: the start of the persisted record, up to and including the
quote that opens the ssid text: an opening brace, then `"ssid":"`. -/
def recordOpen : List Char := "\x7b\x22ssid\x22:\x22".toList

/-- Modelled from the spec: what stands between the quote that closes the ssid text and
the password text: `,"password":"`. -/
def recordMiddle : List Char := ",\x22password\x22:\x22".toList

/-- Modelled from the spec: what follows the quote that closes the password text: the
closing brace. -/
def recordClose : List Char := "\x7d".toList

/-- Modelled from the spec: the text of a field inside the structured record (§6); a
double quote (`'\x22'`) or a backslash (`'\x5c'`) is preceded by a backslash. -/
def escapeText : List Char → List Char
  | [] => []
  | c :: cs => if c = '\x22' ∨ c = '\x5c' then '\x5c' :: c :: escapeText cs else c :: escapeText cs

/-- Modelled from the spec: read a field text up to its closing double quote; the result
is the text and what follows the quote. -/
def readText : List Char → Option (List Char × List Char)
  | [] => none
  | c :: cs =>
    if c = '\x22' then some ([], cs)
    else if c = '\x5c' then
      match cs with
      | [] => none
      | e :: rest => (readText rest).map (fun r => (e :: r.1, r.2))
    else (readText cs).map (fun r => (c :: r.1, r.2))

/-- Modelled from the spec: the persisted settings record, "a single structured record
... containing {ssid, password} as text fields" (§6), written as a JSON object. -/
def serializeCredentials (c : WifiCredentials) : List Char :=
  recordOpen ++ escapeText c.ssid ++ '\x22' :: recordMiddle ++
    escapeText c.password ++ '\x22' :: recordClose

/-- Modelled from the spec: parse the persisted settings record; no result on content
that is not such a record. -/
def parseCredentials (input : List Char) : Option WifiCredentials :=
  match stripLiteral recordOpen input with
  | none => none
  | some r1 =>
    match readText r1 with
    | none => none
    | some (ssid, r2) =>
      match stripLiteral recordMiddle r2 with
      | none => none
      | some r3 =>
        match readText r3 with
        | none => none
        | some (password, r4) =>
          if r4 = recordClose then some ⟨ssid, password⟩ else none

/-- Modelled from the spec: `load() -> (WifiCredentials, success)` of the settings store
(§4.2): "on missing file, corrupt/unparseable content, or I/O failure, returns
success=false and an empty credentials value". -/
def SettingsStore.load (fs : FileSystem) (path : String) : WifiCredentials × Bool :=
  match fs path with
  | none => (WifiCredentials.empty, false)
  | some content =>
    match parseCredentials content with
    | none => (WifiCredentials.empty, false)
    | some c => (c, true)

/-- The in-memory credentials: the two fields read as terminated strings. -/
def FlipperHTTP.credentials (self : FlipperHTTP) : Option WifiCredentials :=
  match readCString self.loadedSSID, readCString self.loadedPassword with
  | some s, some p => some ⟨s, p⟩
  | _, _ => none

/-- Copy a credentials value into `loadedSSID` and `loadedPassword`, each copy bounded
by the size of its field. -/
def FlipperHTTP.setCredentials (self : FlipperHTTP) (c : WifiCredentials) : FlipperHTTP :=
  { self with
    loadedSSID := copyBounded self.loadedSSID c.ssid
    loadedPassword := copyBounded self.loadedPassword c.password }

/-- Modelled from the spec: `bool loadWifiSettings()`, whose definition is missing.
The result is the success flag of `load()` (§4.2).  On success the loaded credentials
value is copied into `loadedSSID` and `loadedPassword`, the in-memory copy of §3.  On
failure the object is left as it was: storage errors are "surfaced as boolean false
with the previous in-memory state left unchanged" (§7(b)); the empty credentials value
of §4.2 is the value of `load()`, which is not stored. -/
def loadWifiSettings (self : FlipperHTTP) (fs : FileSystem) : Bool × FlipperHTTP :=
  let r := SettingsStore.load fs self.settingsFilePath
  if r.2 then (true, self.setCredentials r.1) else (false, self)

/-- Modelled from the spec: `bool saveWifiSettings(String data)`, whose definition is
missing; `save(credentials) -> bool` of the settings store (§4.2): "serializes and
overwrites the persisted record; success reflects whether every byte was durably
written", and the in-memory credentials are updated only when the write is confirmed.
The record that the header passes as text is taken as the credentials value it
holds. -/
def saveWifiSettings (self : FlipperHTTP) (fs : FileSystem) (c : WifiCredentials) :
    Bool × FlipperHTTP × FileSystem :=
  let data := serializeCredentials c
  let w := fs.write self.settingsFilePath data
  if w.2 = data.length then (true, self.setCredentials c, w.1) else (false, self, w.1)

/-- Modelled from the spec: `save(c)` followed by `load()`; the result is the flag of
the save, the flag of the load and the object after the load. -/
def saveThenLoad (self : FlipperHTTP) (fs : FileSystem) (c : WifiCredentials) :
    Bool × Bool × FlipperHTTP :=
  let s := saveWifiSettings self fs c
  let l := loadWifiSettings s.2.1 s.2.2
  (s.1, l.1, l.2)

/-! ## The request operations

`get`, `post`, `put`, `delete_request`, `get_bytes_to_file` and `post_bytes_to_file`
are declared in the header and defined elsewhere.  They are modelled from the
specification (§3, §4.4, §4.5, §6), with the parameter lists of the header. -/

/-- Modelled from the spec: an outgoing request, with the headers put on it in order. -/
structure HttpRequest where
  method : String
  url : String
  headers : List (String × String)
  payload : Option String
deriving DecidableEq

/-- Modelled from the spec: what an operation does on the network: an attempt to join
the wireless network, or a request handed to the transport. -/
inductive NetEvent where
  | joinAttempt (ssid password : List Char)
  | send (request : HttpRequest)
deriving DecidableEq

/-- The network as an operation meets it: the state of the `WiFi` object and the answer
of the transport to each request, a response body or a failure (DNS, connect, TLS
handshake, timeout, non-parseable response). -/
structure Network where
  WiFi : WiFiClass
  transport : HttpRequest → Option String

/-- Constants that the missing definitions fix and that the specification leaves
unnamed, taken as parameters, with the library constant `WL_CONNECTED`. -/
structure Constants where
  /-- The connected link status of the core library. -/
  WL_CONNECTED : Nat
  /-- The "single distinguished failure sentinel string" of §4.4. -/
  failureSentinel : String
  /-- The file that the bytes-to-file operations write the response body to. -/
  bytesFilePath : String

/-- Modelled from the spec: the header set of a request (§3, §6): for each index below
`n`, starting at `i`, the pair of `headerKeys[i]` and `headerValues[i]`.  There is no
result when an index is outside one of the sequences, which the specification calls
undefined behaviour for the caller. -/
def collectHeaders (headerKeys headerValues : List String) : Nat → Nat →
    Option (List (String × String))
  | _, 0 => some []
  | i, n + 1 =>
    match headerKeys[i]?, headerValues[i]?, collectHeaders headerKeys headerValues (i + 1) n with
    | some k, some v, some rest => some ((k, v) :: rest)
    | _, _, _ => none

/-- Modelled from the spec: the header set for the arguments
`const char *headerKeys[], const char *headerValues[], int headerSize`. -/
def headerSet (headerKeys headerValues : List String) (headerSize : Int) :
    Option (List (String × String)) :=
  collectHeaders headerKeys headerValues 0 headerSize.toNat

/-- Modelled from the spec: issue one request (§4.4).  Disconnected, the call fails
immediately with the sentinel and does nothing on the network; connected, the request
is sent and the result is the response body, or the sentinel on a transport failure. -/
def perform (K : Constants) (net : Network) (self : FlipperHTTP) (req : HttpRequest) :
    String × List NetEvent :=
  if (isConnectedToWifi K.WL_CONNECTED net.WiFi self).1 then
    match net.transport req with
    | some body => (body, [NetEvent.send req])
    | none => (K.failureSentinel, [NetEvent.send req])
  else (K.failureSentinel, [])

/-- Modelled from the spec: issue one request whose response body goes to storage
(§4.5); the result tells whether the entire transfer completed. -/
def performToFile (K : Constants) (net : Network) (self : FlipperHTTP) (fs : FileSystem)
    (req : HttpRequest) : Bool × List NetEvent × FileSystem :=
  if (isConnectedToWifi K.WL_CONNECTED net.WiFi self).1 then
    match net.transport req with
    | some body =>
      let w := fs.write K.bytesFilePath body.toList
      (decide (w.2 = body.toList.length), [NetEvent.send req], w.1)
    | none => (false, [NetEvent.send req], fs)
  else (false, [], fs)

/-- Modelled from the spec: `String get(String url)`. -/
def get (K : Constants) (net : Network) (self : FlipperHTTP) (url : String) :
    String × List NetEvent :=
  perform K net self ⟨"GET", url, [], none⟩

/-- Modelled from the spec: `String post(String url, String payload)`. -/
def post (K : Constants) (net : Network) (self : FlipperHTTP) (url payload : String) :
    String × List NetEvent :=
  perform K net self ⟨"POST", url, [], some payload⟩

/-- Modelled from the spec: `String put(String url, String payload)`. -/
def put (K : Constants) (net : Network) (self : FlipperHTTP) (url payload : String) :
    String × List NetEvent :=
  perform K net self ⟨"PUT", url, [], some payload⟩

/-- Modelled from the spec: `String delete_request(String url, String payload)`. -/
def delete_request (K : Constants) (net : Network) (self : FlipperHTTP)
    (url payload : String) : String × List NetEvent :=
  perform K net self ⟨"DELETE", url, [], some payload⟩

/-- Modelled from the spec: `String get(String url, const char *headerKeys[],
const char *headerValues[], int headerSize)`. -/
def get_with_headers (K : Constants) (net : Network) (self : FlipperHTTP) (url : String)
    (headerKeys headerValues : List String) (headerSize : Int) :
    Option (String × List NetEvent) :=
  (headerSet headerKeys headerValues headerSize).map
    (fun hs => perform K net self ⟨"GET", url, hs, none⟩)

/-- Modelled from the spec: `String post(String url, String payload,
const char *headerKeys[], const char *headerValues[], int headerSize)`. -/
def post_with_headers (K : Constants) (net : Network) (self : FlipperHTTP)
    (url payload : String) (headerKeys headerValues : List String) (headerSize : Int) :
    Option (String × List NetEvent) :=
  (headerSet headerKeys headerValues headerSize).map
    (fun hs => perform K net self ⟨"POST", url, hs, some payload⟩)

/-- Modelled from the spec: `String put(String url, String payload,
const char *headerKeys[], const char *headerValues[], int headerSize)`. -/
def put_with_headers (K : Constants) (net : Network) (self : FlipperHTTP)
    (url payload : String) (headerKeys headerValues : List String) (headerSize : Int) :
    Option (String × List NetEvent) :=
  (headerSet headerKeys headerValues headerSize).map
    (fun hs => perform K net self ⟨"PUT", url, hs, some payload⟩)

/-- Modelled from the spec: `String delete_request(String url, String payload,
const char *headerKeys[], const char *headerValues[], int headerSize)`. -/
def delete_request_with_headers (K : Constants) (net : Network) (self : FlipperHTTP)
    (url payload : String) (headerKeys headerValues : List String) (headerSize : Int) :
    Option (String × List NetEvent) :=
  (headerSet headerKeys headerValues headerSize).map
    (fun hs => perform K net self ⟨"DELETE", url, hs, some payload⟩)

/-- Modelled from the spec: `bool get_bytes_to_file(String url,
const char *headerKeys[], const char *headerValues[], int headerSize)`. -/
def get_bytes_to_file (K : Constants) (net : Network) (self : FlipperHTTP)
    (fs : FileSystem) (url : String) (headerKeys headerValues : List String)
    (headerSize : Int) : Option (Bool × List NetEvent × FileSystem) :=
  (headerSet headerKeys headerValues headerSize).map
    (fun hs => performToFile K net self fs ⟨"GET", url, hs, none⟩)

/-- Modelled from the spec: `bool post_bytes_to_file(String url, String payload,
const char *headerKeys[], const char *headerValues[], int headerSize)`. -/
def post_bytes_to_file (K : Constants) (net : Network) (self : FlipperHTTP)
    (fs : FileSystem) (url payload : String) (headerKeys headerValues : List String)
    (headerSize : Int) : Option (Bool × List NetEvent × FileSystem) :=
  (headerSet headerKeys headerValues headerSize).map
    (fun hs => performToFile K net self fs ⟨"POST", url, hs, some payload⟩)

/-- The headers `hs` are exactly the `n` pairs of the two sequences: there are `n` of
them, and the one at each index has the name and the value given at that index. -/
def CarriesHeaders (headerKeys headerValues : List String) (n : Nat)
    (hs : List (String × String)) : Prop :=
  hs.length = n ∧
  ∀ i, i < n → ∃ k v, headerKeys[i]? = some k ∧ headerValues[i]? = some v ∧
    hs[i]? = some (k, v)

/-- An operation sent exactly one request, and its headers are the given ones. -/
def SentWith (headerKeys headerValues : List String) (n : Nat) (log : List NetEvent) :
    Prop :=
  ∃ req, log = [NetEvent.send req] ∧ CarriesHeaders headerKeys headerValues n req.headers

/-! ## The command dispatcher

`loop` and `ledAction` are declared in the header and defined elsewhere.  They are
modelled from the specification (§3, §4.6, §4.7). -/

/-- Modelled from the spec: the presentation patterns of the indicator light (§3). -/
inductive LedPattern where
  | Off
  | StartupSequence
  | IdleHeartbeat
  | ActionFlash
deriving DecidableEq

/-- Everything one dispatch cycle can read or change: the object, the wireless link,
the flash file system, the lines written to the serial port and the patterns shown on
the indicator light, each with its duration in milliseconds. -/
structure Bridge where
  self : FlipperHTTP
  WiFi : WiFiClass
  fs : FileSystem
  serialOut : List String
  ledTrace : List (LedPattern × Int)

/-- Modelled from the spec: one verb of the fixed vocabulary, with the action it
selects; the action receives the remainder of the command line. -/
structure VerbEntry where
  verb : String
  action : String → Bridge → Bridge

/-- Modelled from the spec: the serial protocol (§6): the closed vocabulary of verbs and
the defined error response to an unrecognized command.  The specification names
neither the verbs nor the response text, so both are parameters. -/
structure Protocol where
  vocabulary : List VerbEntry
  unrecognized : String

/-- Modelled from the spec: a command line starts with a verb ("exact prefix match,
case-sensitive", §4.6). -/
def startsWith (line verb : String) : Bool :=
  (stripLiteral verb.toList line.toList).isSome

/-- Modelled from the spec: the first verb of the vocabulary that the line starts with,
and the remainder of the line. -/
def matchVerb : List VerbEntry → String → Option (VerbEntry × String)
  | [], _ => none
  | e :: es, line =>
    match stripLiteral e.verb.toList line.toList with
    | some rest => some (e, String.mk rest)
    | none => matchVerb es line

/-- Modelled from the spec: `void ledAction(int timeout = 250)`, whose definition is
missing: the action flash of §4.6 and §4.7, shown when the LED is in use. -/
def ledAction (timeout : Int) (b : Bridge) : Bridge :=
  if b.self.useLED then
    { b with ledTrace := b.ledTrace ++ [(LedPattern.ActionFlash, timeout)] }
  else b

/-- Modelled from the spec: one iteration of `void loop()` on the command line read from
the serial port (§4.6): on a match, the action of the verb; on no match, the defined
error response; then the action flash. -/
def loop (P : Protocol) (line : String) (b : Bridge) : Bridge :=
  match matchVerb P.vocabulary line with
  | some (e, rest) => ledAction 250 (e.action rest b)
  | none => ledAction 250 { b with serialOut := b.serialOut ++ [P.unrecognized] }

/-! ## Concrete values on which the theorems are exercised -/

/-- A 64-byte text without NUL: 64 times the letter `A`. -/
def text64 : List Char := List.replicate 64 'A'

/-- A 63-byte text without NUL: 63 times the letter `A`. -/
def text63 : List Char := List.replicate 63 'A'

/-- Credentials whose ssid is 64 bytes long. -/
def credentials64 : WifiCredentials := ⟨text64, "hunter2".toList⟩

/-- Credentials whose ssid is 63 bytes long. -/
def credentials63 : WifiCredentials := ⟨text63, "hunter2".toList⟩

/-- A file system that holds no file. -/
def emptyFileSystem : FileSystem := fun _ => none

/-- A file system whose settings file exists and is zero bytes long. -/
def zeroLengthFileSystem : FileSystem :=
  fun p => if p = "/flipper-http.json" then some [] else none

/-- The object after a successful save of credentials with a 63-byte ssid. -/
def objectAfterSave : FlipperHTTP :=
  (saveWifiSettings FlipperHTTP.construct emptyFileSystem credentials63).2.1

/-- A wireless interface whose link is down and whose address is unset. -/
def linkDown : WiFiClass := ⟨6, ⟨0, 0, 0, 0⟩⟩

/-- A wireless interface whose link is up. -/
def linkUp : WiFiClass := ⟨3, ⟨192, 168, 1, 7⟩⟩

/-- Sample constants: link status 3 for connected, the empty string as sentinel. -/
def sampleConstants : Constants := ⟨3, "", "/response.bin"⟩

/-- A network whose link is down. -/
def networkDown : Network := ⟨linkDown, fun _ => some "pong"⟩

/-- A network whose link is up and whose server answers every request. -/
def networkUp : Network := ⟨linkUp, fun _ => some "pong"⟩

/-- A network whose link is up and whose transport fails on every request. -/
def networkFailing : Network := ⟨linkUp, fun _ => none⟩

/-- Two header names. -/
def sampleKeys : List String := ["Content-Type", "Accept"]

/-- Two header values. -/
def sampleValues : List String := ["application/json", "text/plain"]

/-- A protocol with two verbs. -/
def sampleProtocol : Protocol :=
  ⟨[⟨"[PING]", fun _ b => { b with serialOut := b.serialOut ++ ["[PONG]"] }⟩,
    ⟨"[WIFI/IP]", fun _ b => { b with serialOut := b.serialOut ++ [getIPAddress b.WiFi b.self] }⟩],
   "[ERROR] Unknown command."⟩

/-- A bridge right after construction, link down, nothing stored. -/
def sampleBridge : Bridge := ⟨FlipperHTTP.construct, linkDown, emptyFileSystem, [], []⟩

/-! ## Lemmas on C strings -/

theorem readCString_append_nul (s rest : List Char) (h : nulFree s) :
    readCString (s ++ NUL :: rest) = some s := by
  induction s with
  | nil => simp [readCString]
  | cons c cs ih =>
    have hc : c ≠ NUL := h c (by simp)
    have hcs : nulFree cs := fun x hx => h x (by simp [hx])
    simp [readCString, hc, ih hcs]

theorem readCString_length_lt (f s : List Char) (h : readCString f = some s) :
    s.length < f.length := by
  induction f generalizing s with
  | nil => simp [readCString] at h
  | cons c cs ih =>
    simp only [readCString] at h
    split at h
    · cases h; simp
    · cases hr : readCString cs with
      | none => simp [hr] at h
      | some t =>
        simp [hr] at h
        subst h
        have := ih t hr
        simp; omega

theorem storeCString_fits (dst s : List Char) (h : s.length + 1 ≤ dst.length) :
    storeCString dst s = some (s ++ NUL :: dst.drop (s.length + 1)) := by
  simp [storeCString, h]

theorem storeCString_length (dst s f : List Char) (h : storeCString dst s = some f) :
    f.length = dst.length := by
  unfold storeCString at h
  split at h
  · cases h; simp; omega
  · cases h

theorem copyBounded_length (dst s : List Char) :
    (copyBounded dst s).length = dst.length := by
  unfold copyBounded
  split
  · next d hd => exact storeCString_length _ _ _ hd
  · rfl

theorem copyBounded_read (dst s : List Char) (hs : s.length + 1 ≤ dst.length)
    (hn : nulFree s) : readCString (copyBounded dst s) = some s := by
  have ht : s.take (dst.length - 1) = s := List.take_of_length_le (by omega)
  unfold copyBounded
  rw [ht, storeCString_fits dst s hs]
  exact readCString_append_nul s _ hn

theorem setCredentials_wellFormed (self : FlipperHTTP) (c : WifiCredentials)
    (h : self.WellFormed) : (self.setCredentials c).WellFormed := by
  unfold FlipperHTTP.WellFormed FlipperHTTP.setCredentials at *
  simp only [copyBounded_length]
  exact h

theorem setCredentials_credentials (self : FlipperHTTP) (c : WifiCredentials)
    (h : self.WellFormed) (hs : c.ssid.length ≤ 63) (hp : c.password.length ≤ 63)
    (hns : nulFree c.ssid) (hnp : nulFree c.password) :
    (self.setCredentials c).credentials = some c := by
  obtain ⟨h1, h2⟩ := h
  unfold credentialFieldSize at h1 h2
  unfold FlipperHTTP.credentials FlipperHTTP.setCredentials
  simp only [copyBounded_read self.loadedSSID c.ssid (by omega) hns,
    copyBounded_read self.loadedPassword c.password (by omega) hnp]

theorem wellFormed_never_holds_64 (self : FlipperHTTP) (h : self.WellFormed)
    (s : List Char) (hs : s.length = 64) :
    readCString self.loadedSSID ≠ some s ∧ readCString self.loadedPassword ≠ some s := by
  obtain ⟨h1, h2⟩ := h
  unfold credentialFieldSize at h1 h2
  constructor
  · intro hr
    have := readCString_length_lt _ _ hr
    omega
  · intro hr
    have := readCString_length_lt _ _ hr
    omega

/-! ## Lemmas on the settings record -/

theorem stripLiteral_append (lit rest : List Char) :
    stripLiteral lit (lit ++ rest) = some rest := by
  induction lit with
  | nil => cases rest <;> simp [stripLiteral]
  | cons l ls ih => simp [stripLiteral, ih]

theorem readText_quote (rest : List Char) :
    readText ('\x22' :: rest) = some ([], rest) := by
  cases rest <;> simp [readText]

theorem readText_escaped (e : Char) (rest : List Char) :
    readText ('\x5c' :: e :: rest) = (readText rest).map (fun r => (e :: r.1, r.2)) := by
  simp [readText]

theorem readText_plain (c : Char) (cs : List Char) (hq : c ≠ '\x22') (hb : c ≠ '\x5c') :
    readText (c :: cs) = (readText cs).map (fun r => (c :: r.1, r.2)) := by
  cases cs <;> simp [readText, hq, hb]

theorem readText_escapeText (s rest : List Char) :
    readText (escapeText s ++ '\x22' :: rest) = some (s, rest) := by
  induction s with
  | nil => simp [escapeText, readText_quote]
  | cons c cs ih =>
    by_cases hq : c = '\x22'
    · subst hq
      simp [escapeText, readText_escaped, ih]
    · by_cases hb : c = '\x5c'
      · subst hb
        simp [escapeText, readText_escaped, ih]
      · simp [escapeText, hq, hb, readText_plain, ih]

theorem parse_serialize (c : WifiCredentials) :
    parseCredentials (serializeCredentials c) = some c := by
  unfold parseCredentials serializeCredentials
  simp only [List.append_assoc, List.cons_append, stripLiteral_append, readText_escapeText]
  simp

theorem load_after_write (fs : FileSystem) (path : String) (c : WifiCredentials) :
    SettingsStore.load (fs.write path (serializeCredentials c)).1 path = (c, true) := by
  simp [SettingsStore.load, FileSystem.write, parse_serialize]

/-! ## Lemmas on header sets, requests and the vocabulary -/

theorem collectHeaders_spec (keys values : List String) (n : Nat) :
    ∀ i, i + n ≤ keys.length → i + n ≤ values.length →
      ∃ hs, collectHeaders keys values i n = some hs ∧ hs.length = n ∧
        ∀ j, j < n → ∃ k v, keys[i + j]? = some k ∧ values[i + j]? = some v ∧
          hs[j]? = some (k, v) := by
  induction n with
  | zero =>
    intro i _ _
    exact ⟨[], rfl, rfl, fun j hj => absurd hj (Nat.not_lt_zero j)⟩
  | succ n ih =>
    intro i hk hv
    obtain ⟨rest, hrest, hlen, hidx⟩ := ih (i + 1) (by omega) (by omega)
    have hik : i < keys.length := by omega
    have hiv : i < values.length := by omega
    obtain ⟨k0, hk0⟩ : ∃ k, keys[i]? = some k := ⟨keys[i], List.getElem?_eq_getElem hik⟩
    obtain ⟨v0, hv0⟩ : ∃ v, values[i]? = some v := ⟨values[i], List.getElem?_eq_getElem hiv⟩
    refine ⟨(k0, v0) :: rest, ?_, by simp [hlen], ?_⟩
    · simp only [collectHeaders, hk0, hv0, hrest]
    · intro j hj
      cases j with
      | zero => exact ⟨k0, v0, hk0, hv0, by simp⟩
      | succ j =>
        obtain ⟨k, v, h1, h2, h3⟩ := hidx j (by omega)
        refine ⟨k, v, ?_, ?_, ?_⟩
        · rw [← h1]; congr 1; omega
        · rw [← h2]; congr 1; omega
        · simpa using h3

theorem headerSet_carries (keys values : List String) (n : Nat)
    (hk : keys.length = n) (hv : values.length = n) :
    ∃ hs, headerSet keys values (n : Int) = some hs ∧ CarriesHeaders keys values n hs := by
  obtain ⟨hs, h1, h2, h3⟩ := collectHeaders_spec keys values n 0 (by omega) (by omega)
  refine ⟨hs, by simpa [headerSet] using h1, h2, ?_⟩
  intro i hi
  simpa using h3 i hi

theorem perform_connected_log (K : Constants) (net : Network) (self : FlipperHTTP)
    (req : HttpRequest) (hc : (isConnectedToWifi K.WL_CONNECTED net.WiFi self).1 = true) :
    (perform K net self req).2 = [NetEvent.send req] := by
  unfold perform
  rw [if_pos hc]
  cases net.transport req <;> rfl

theorem performToFile_connected_log (K : Constants) (net : Network) (self : FlipperHTTP)
    (fs : FileSystem) (req : HttpRequest)
    (hc : (isConnectedToWifi K.WL_CONNECTED net.WiFi self).1 = true) :
    (performToFile K net self fs req).2.1 = [NetEvent.send req] := by
  unfold performToFile
  rw [if_pos hc]
  cases net.transport req <;> rfl

theorem map_perform_sent (K : Constants) (net : Network) (self : FlipperHTTP)
    (mk : List (String × String) → HttpRequest) (hmk : ∀ hs, (mk hs).headers = hs)
    (keys values : List String) (n : Nat)
    (hk : keys.length = n) (hv : values.length = n)
    (hc : (isConnectedToWifi K.WL_CONNECTED net.WiFi self).1 = true) :
    ∃ r, (headerSet keys values (n : Int)).map (fun hs => perform K net self (mk hs))
        = some r ∧ SentWith keys values n r.2 := by
  obtain ⟨hs, hset, hcar⟩ := headerSet_carries keys values n hk hv
  refine ⟨perform K net self (mk hs), by rw [hset]; rfl, mk hs,
    perform_connected_log K net self _ hc, ?_⟩
  rw [hmk]
  exact hcar

theorem map_performToFile_sent (K : Constants) (net : Network) (self : FlipperHTTP)
    (fs : FileSystem)
    (mk : List (String × String) → HttpRequest) (hmk : ∀ hs, (mk hs).headers = hs)
    (keys values : List String) (n : Nat)
    (hk : keys.length = n) (hv : values.length = n)
    (hc : (isConnectedToWifi K.WL_CONNECTED net.WiFi self).1 = true) :
    ∃ r, (headerSet keys values (n : Int)).map
        (fun hs => performToFile K net self fs (mk hs)) = some r ∧
      SentWith keys values n r.2.1 := by
  obtain ⟨hs, hset, hcar⟩ := headerSet_carries keys values n hk hv
  refine ⟨performToFile K net self fs (mk hs), by rw [hset]; rfl, mk hs,
    performToFile_connected_log K net self fs _ hc, ?_⟩
  rw [hmk]
  exact hcar

theorem matchVerb_none (vocabulary : List VerbEntry) (line : String)
    (h : ∀ e ∈ vocabulary, startsWith line e.verb = false) :
    matchVerb vocabulary line = none := by
  induction vocabulary with
  | nil => rfl
  | cons e es ih =>
    have he := h e (by simp)
    have hes := ih (fun x hx => h x (by simp [hx]))
    unfold startsWith at he
    cases hst : stripLiteral e.verb.toList line.toList with
    | none => simp only [matchVerb, hst, hes]
    | some r => rw [hst] at he; cases he

theorem toString_ne_empty (ip : IPAddress) : ip.toString ≠ "" := by
  intro h
  have hl := congrArg String.length h
  simp only [IPAddress.toString, String.length_append] at hl
  have h1 : ".".length = 1 := rfl
  have h0 : "".length = 0 := rfl
  omega

/-! ## The credentials fields and the settings store -/

/-- Claim C1, amended: for every credentials value whose ssid and password are each at
most 63 bytes long and free of NUL bytes, and for every object and file system,
`saveWifiSettings` followed by `loadWifiSettings` succeeds (both return true) and leaves
the in-memory credentials, read from `loadedSSID` and `loadedPassword`, equal to that
value; the fields keep their size. -/
theorem save_then_load_roundtrip (self : FlipperHTTP) (fs : FileSystem)
    (c : WifiCredentials) (hwf : self.WellFormed)
    (hs : c.ssid.length ≤ 63) (hp : c.password.length ≤ 63)
    (hns : nulFree c.ssid) (hnp : nulFree c.password) :
    (saveThenLoad self fs c).1 = true ∧
    (saveThenLoad self fs c).2.1 = true ∧
    (saveThenLoad self fs c).2.2.credentials = some c ∧
    (saveThenLoad self fs c).2.2.WellFormed := by
  have hw : (fs.write self.settingsFilePath (serializeCredentials c)).2
      = (serializeCredentials c).length := rfl
  have hpath : (self.setCredentials c).settingsFilePath = self.settingsFilePath := rfl
  have hsave : saveWifiSettings self fs c = (true, self.setCredentials c,
      (fs.write self.settingsFilePath (serializeCredentials c)).1) := by
    simp [saveWifiSettings, hw]
  have hload : loadWifiSettings (self.setCredentials c)
      (fs.write self.settingsFilePath (serializeCredentials c)).1
      = (true, (self.setCredentials c).setCredentials c) := by
    simp only [loadWifiSettings, hpath, load_after_write, if_true]
  have hwf1 := setCredentials_wellFormed self c hwf
  simp only [saveThenLoad, hsave, hload]
  exact ⟨trivial, trivial, setCredentials_credentials _ c hwf1 hs hp hns hnp,
    setCredentials_wellFormed _ c hwf1⟩

/-- Claim C1, amended, on a fresh object, an empty file system and a 63-byte ssid. -/
theorem save_then_load_roundtrip_witness :
    (FlipperHTTP.construct.WellFormed ∧ credentials63.ssid.length ≤ 63 ∧
      credentials63.password.length ≤ 63 ∧ nulFree credentials63.ssid ∧
      nulFree credentials63.password) ∧
    (saveThenLoad FlipperHTTP.construct emptyFileSystem credentials63).1 = true ∧
    (saveThenLoad FlipperHTTP.construct emptyFileSystem credentials63).2.1 = true ∧
    (saveThenLoad FlipperHTTP.construct emptyFileSystem credentials63).2.2.credentials
      = some credentials63 ∧
    (saveThenLoad FlipperHTTP.construct emptyFileSystem credentials63).2.2.WellFormed :=
  ⟨by decide,
    save_then_load_roundtrip FlipperHTTP.construct emptyFileSystem credentials63
      (by decide) (by decide) (by decide) (by decide) (by decide)⟩

set_option maxRecDepth 100000 in
/-- Claim C1 as stated fails: credentials with a 64-byte ssid are within the stated limit
and free of NUL bytes; on a fresh object and an empty file system, save and load both
return true, yet the in-memory credentials then hold only the first 63 bytes of the
ssid; and no object whose fields have their declared size holds the 64-byte ssid. -/
theorem save_then_load_loses_byte_64 :
    credentials64.withinLimit ∧ nulFree credentials64.ssid ∧
    nulFree credentials64.password ∧
    (saveThenLoad FlipperHTTP.construct emptyFileSystem credentials64).1 = true ∧
    (saveThenLoad FlipperHTTP.construct emptyFileSystem credentials64).2.1 = true ∧
    (saveThenLoad FlipperHTTP.construct emptyFileSystem credentials64).2.2.credentials
      = some credentials63 ∧
    (saveThenLoad FlipperHTTP.construct emptyFileSystem credentials64).2.2.credentials
      ≠ some credentials64 ∧
    (∀ self : FlipperHTTP, self.WellFormed → self.credentials ≠ some credentials64) := by
  refine ⟨by decide, by decide, by decide, by decide, by decide, by decide, by decide, ?_⟩
  intro self hwf hc
  have hno := (wellFormed_never_holds_64 self hwf text64 (by decide)).1
  unfold FlipperHTTP.credentials at hc
  cases h1 : readCString self.loadedSSID with
  | none => simp [h1] at hc
  | some s =>
    cases h2 : readCString self.loadedPassword with
    | none => simp [h1, h2] at hc
    | some q =>
      simp only [h1, h2, Option.some.injEq] at hc
      apply hno
      rw [h1]
      exact congrArg (fun c => some c.ssid) hc

/-- Claim C2, amended: every text of at most 63 bytes without a NUL byte, stored as a
terminated string in `loadedSSID` (respectively `loadedPassword`) of any object, stays
inside the field, leaves the other field and the field sizes as they were, and reads
back equal. -/
theorem credential_fields_hold_63 (self : FlipperHTTP) (s : List Char)
    (hwf : self.WellFormed) (hlen : s.length ≤ 63) (hnul : nulFree s) :
    (∃ self1, self.storeSSID s = some self1 ∧ self1.WellFormed ∧
      readCString self1.loadedSSID = some s ∧
      self1.loadedPassword = self.loadedPassword) ∧
    (∃ self2, self.storePassword s = some self2 ∧ self2.WellFormed ∧
      readCString self2.loadedPassword = some s ∧
      self2.loadedSSID = self.loadedSSID) := by
  obtain ⟨h1, h2⟩ := hwf
  have h1a := h1
  have h2a := h2
  unfold credentialFieldSize at h1a h2a
  have f1 := storeCString_fits self.loadedSSID s (by omega)
  have f2 := storeCString_fits self.loadedPassword s (by omega)
  constructor
  · refine ⟨{ self with loadedSSID := s ++ NUL :: self.loadedSSID.drop (s.length + 1) },
      by simp only [FlipperHTTP.storeSSID, f1, Option.map_some'], ?_, ?_, rfl⟩
    · exact ⟨(storeCString_length _ _ _ f1).trans h1, h2⟩
    · exact readCString_append_nul s _ hnul
  · refine ⟨{ self with
        loadedPassword := s ++ NUL :: self.loadedPassword.drop (s.length + 1) },
      by simp only [FlipperHTTP.storePassword, f2, Option.map_some'], ?_, ?_, rfl⟩
    · exact ⟨h1, (storeCString_length _ _ _ f2).trans h2⟩
    · exact readCString_append_nul s _ hnul

/-- Claim C2, amended, on a fresh object and a 63-byte text. -/
theorem credential_fields_hold_63_witness :
    (FlipperHTTP.construct.WellFormed ∧ text63.length ≤ 63 ∧ nulFree text63) ∧
    (∃ self1, FlipperHTTP.construct.storeSSID text63 = some self1 ∧ self1.WellFormed ∧
      readCString self1.loadedSSID = some text63 ∧
      self1.loadedPassword = FlipperHTTP.construct.loadedPassword) ∧
    (∃ self2, FlipperHTTP.construct.storePassword text63 = some self2 ∧
      self2.WellFormed ∧ readCString self2.loadedPassword = some text63 ∧
      self2.loadedSSID = FlipperHTTP.construct.loadedSSID) :=
  ⟨by decide,
    credential_fields_hold_63 FlipperHTTP.construct text63
      (by decide) (by decide) (by decide)⟩

/-- Claim C2 as stated fails: a 64-byte text without NUL does not fit, with its
terminator, in `loadedSSID` nor in `loadedPassword` of a fresh object, and no content of
a 64-byte field reads back as that text. -/
theorem credential_fields_reject_64 :
    text64.length ≤ 64 ∧ nulFree text64 ∧ FlipperHTTP.construct.WellFormed ∧
    FlipperHTTP.construct.storeSSID text64 = none ∧
    FlipperHTTP.construct.storePassword text64 = none ∧
    (∀ self : FlipperHTTP, self.WellFormed →
      readCString self.loadedSSID ≠ some text64 ∧
      readCString self.loadedPassword ≠ some text64) :=
  ⟨by decide, by decide, by decide, by decide, by decide,
    fun self hwf => wellFormed_never_holds_64 self hwf text64 (by decide)⟩

/-- Claim C4, amended: `loadWifiSettings` against a missing or zero-length settings file
returns false, the credentials value of `load()` is empty (ssid and password both the
empty string), and the in-memory credentials are left as they were, so they are empty
whenever they were empty before the call; being a total function, it has no other way
to fail. -/
theorem load_missing_or_empty_file (self : FlipperHTTP) (fs : FileSystem)
    (hfile : fs self.settingsFilePath = none ∨ fs self.settingsFilePath = some []) :
    (loadWifiSettings self fs).1 = false ∧
    SettingsStore.load fs self.settingsFilePath = (⟨[], []⟩, false) ∧
    (loadWifiSettings self fs).2 = self ∧
    ((loadWifiSettings self fs).2.credentials = some ⟨[], []⟩ ↔
      self.credentials = some ⟨[], []⟩) := by
  have hload : SettingsStore.load fs self.settingsFilePath
      = (WifiCredentials.empty, false) := by
    rcases hfile with h | h
    · simp [SettingsStore.load, h]
    · simp [SettingsStore.load, h, parseCredentials, recordOpen, stripLiteral]
  have hres : loadWifiSettings self fs = (false, self) := by
    simp [loadWifiSettings, hload]
  rw [hres]
  exact ⟨rfl, hload, rfl, Iff.rfl⟩

/-- Claim C4, amended, on a fresh object against a zero-length settings file: the load
returns false and the in-memory credentials are empty. -/
theorem load_missing_or_empty_file_witness :
    (zeroLengthFileSystem FlipperHTTP.construct.settingsFilePath = none ∨
      zeroLengthFileSystem FlipperHTTP.construct.settingsFilePath = some []) ∧
    (loadWifiSettings FlipperHTTP.construct zeroLengthFileSystem).1 = false ∧
    SettingsStore.load zeroLengthFileSystem FlipperHTTP.construct.settingsFilePath
      = (⟨[], []⟩, false) ∧
    (loadWifiSettings FlipperHTTP.construct zeroLengthFileSystem).2
      = FlipperHTTP.construct ∧
    (loadWifiSettings FlipperHTTP.construct zeroLengthFileSystem).2.credentials
      = some ⟨[], []⟩ :=
  have h := load_missing_or_empty_file FlipperHTTP.construct zeroLengthFileSystem
    (Or.inr (by decide))
  ⟨Or.inr (by decide), h.1, h.2.1, h.2.2.1, h.2.2.2.mpr (by decide)⟩

set_option maxRecDepth 100000 in
/-- Claim C4 as stated fails: on the object left by a successful save of credentials
with a 63-byte ssid, a load against a missing settings file, and likewise against a
zero-length one, returns false and leaves those credentials in memory, not the empty
value. -/
theorem load_failure_keeps_credentials :
    objectAfterSave.WellFormed ∧
    objectAfterSave.credentials = some credentials63 ∧
    emptyFileSystem objectAfterSave.settingsFilePath = none ∧
    zeroLengthFileSystem objectAfterSave.settingsFilePath = some [] ∧
    (loadWifiSettings objectAfterSave emptyFileSystem).1 = false ∧
    (loadWifiSettings objectAfterSave emptyFileSystem).2.credentials
      = some credentials63 ∧
    (loadWifiSettings objectAfterSave emptyFileSystem).2.credentials ≠ some ⟨[], []⟩ ∧
    (loadWifiSettings objectAfterSave zeroLengthFileSystem).1 = false ∧
    (loadWifiSettings objectAfterSave zeroLengthFileSystem).2.credentials
      ≠ some ⟨[], []⟩ := by
  decide

/-! ## The inline member functions, the constructor and the certificate -/

/-- Claim C3, amended: in every link state, connected or not, `getIPAddress` returns
the textual form of the local address that the `WiFi` object reports; the link status
does not enter the result, and the result is never the empty string. -/
theorem getIPAddress_is_textual_address (WiFi : WiFiClass) (self : FlipperHTTP)
    (status : Nat) :
    getIPAddress WiFi self = WiFi.localIP.toString ∧
    getIPAddress ⟨status, WiFi.localIP⟩ self = getIPAddress WiFi self ∧
    getIPAddress WiFi self ≠ "" :=
  ⟨rfl, rfl, toString_ne_empty _⟩

/-- Claim C3 as stated fails: with the link down (`isConnectedToWifi` is false) and the
address unset, `getIPAddress` returns the text `0.0.0.0`, not the empty string. -/
theorem getIPAddress_disconnected_not_empty :
    (isConnectedToWifi 3 linkDown FlipperHTTP.construct).1 = false ∧
    getIPAddress linkDown FlipperHTTP.construct = "0.0.0.0" ∧
    getIPAddress linkDown FlipperHTTP.construct ≠ "" := by
  decide

/-- Claim C8: `isConnectedToWifi` is a pure poll: it returns true if and only if the
current link status equals `WL_CONNECTED`, false for every other status, and it leaves
the object as it found it. -/
theorem isConnectedToWifi_pure_poll (WL_CONNECTED : Nat) (WiFi : WiFiClass)
    (self : FlipperHTTP) :
    ((isConnectedToWifi WL_CONNECTED WiFi self).1 = true ↔ WiFi.status = WL_CONNECTED) ∧
    ((isConnectedToWifi WL_CONNECTED WiFi self).1 = false ↔ WiFi.status ≠ WL_CONNECTED) ∧
    (isConnectedToWifi WL_CONNECTED WiFi self).2 = self := by
  simp [isConnectedToWifi]

set_option maxRecDepth 100000 in
/-- Claim C9: `root_ca` holds exactly one certificate: exactly one BEGIN CERTIFICATE
line and exactly one END CERTIFICATE line, the first line is the BEGIN line and the last
line is the END line, the text ends with a newline, and each of the 29 lines between
them is a non-empty base64 line of at most 64 characters. -/
theorem root_ca_single_certificate :
    (splitLines root_ca).count pemBegin = 1 ∧
    (splitLines root_ca).count pemEnd = 1 ∧
    (splitLines root_ca).head? = some pemBegin ∧
    (splitLines root_ca).getLast? = some pemEnd ∧
    root_ca.toList.getLast? = some '\n' ∧
    (innerLines (splitLines root_ca)).length = 29 ∧
    (innerLines (splitLines root_ca)).all isBase64Line = true := by
  decide

/-- Claim C10: a freshly constructed object is in the settings-less state: `loadedSSID`
and `loadedPassword` are 64 zero bytes each and read as the empty string, LED usage is
enabled, the settings path is `/flipper-http.json`; the constructor body changes no
member, so the object is exactly the default member initialisers. -/
theorem construct_is_settingsless :
    FlipperHTTP.construct.loadedSSID = List.replicate 64 NUL ∧
    FlipperHTTP.construct.loadedPassword = List.replicate 64 NUL ∧
    FlipperHTTP.construct.credentials = some ⟨[], []⟩ ∧
    FlipperHTTP.construct.useLED = true ∧
    FlipperHTTP.construct.settingsFilePath = "/flipper-http.json" ∧
    FlipperHTTP.construct = FlipperHTTP.memberDefaults ∧
    (∀ self : FlipperHTTP, FlipperHTTP.ctorBody self = self) :=
  ⟨rfl, rfl, by decide, rfl, rfl, rfl, fun _ => rfl⟩

/-! ## The request operations and the dispatcher -/

/-- Claim C5: for every N and every pair of header sequences of length N, passed with
`headerSize = N`, each of the six header-bearing operations, issued while connected,
sends exactly one request; that request carries exactly N headers, and the header at
each index has the name and the value given at that index. -/
theorem header_operations_carry_headers (K : Constants) (net : Network)
    (self : FlipperHTTP) (fs : FileSystem) (url payload : String)
    (headerKeys headerValues : List String) (N : Nat)
    (hk : headerKeys.length = N) (hv : headerValues.length = N)
    (hc : (isConnectedToWifi K.WL_CONNECTED net.WiFi self).1 = true) :
    (∃ r, get_with_headers K net self url headerKeys headerValues N = some r ∧
      SentWith headerKeys headerValues N r.2) ∧
    (∃ r, post_with_headers K net self url payload headerKeys headerValues N = some r ∧
      SentWith headerKeys headerValues N r.2) ∧
    (∃ r, put_with_headers K net self url payload headerKeys headerValues N = some r ∧
      SentWith headerKeys headerValues N r.2) ∧
    (∃ r, delete_request_with_headers K net self url payload headerKeys headerValues N
        = some r ∧
      SentWith headerKeys headerValues N r.2) ∧
    (∃ r, get_bytes_to_file K net self fs url headerKeys headerValues N = some r ∧
      SentWith headerKeys headerValues N r.2.1) ∧
    (∃ r, post_bytes_to_file K net self fs url payload headerKeys headerValues N
        = some r ∧
      SentWith headerKeys headerValues N r.2.1) :=
  ⟨map_perform_sent K net self (fun hs => ⟨"GET", url, hs, none⟩) (fun _ => rfl)
      headerKeys headerValues N hk hv hc,
    map_perform_sent K net self (fun hs => ⟨"POST", url, hs, some payload⟩) (fun _ => rfl)
      headerKeys headerValues N hk hv hc,
    map_perform_sent K net self (fun hs => ⟨"PUT", url, hs, some payload⟩) (fun _ => rfl)
      headerKeys headerValues N hk hv hc,
    map_perform_sent K net self (fun hs => ⟨"DELETE", url, hs, some payload⟩) (fun _ => rfl)
      headerKeys headerValues N hk hv hc,
    map_performToFile_sent K net self fs (fun hs => ⟨"GET", url, hs, none⟩) (fun _ => rfl)
      headerKeys headerValues N hk hv hc,
    map_performToFile_sent K net self fs (fun hs => ⟨"POST", url, hs, some payload⟩)
      (fun _ => rfl) headerKeys headerValues N hk hv hc⟩

/-- Claim C5 on two headers, a fresh object and a connected network. -/
theorem header_operations_carry_headers_witness :
    (sampleKeys.length = 2 ∧ sampleValues.length = 2 ∧
      (isConnectedToWifi sampleConstants.WL_CONNECTED networkUp.WiFi
        FlipperHTTP.construct).1 = true) ∧
    get_with_headers sampleConstants networkUp FlipperHTTP.construct "https://example.org/"
        sampleKeys sampleValues 2
      = some ("pong", [NetEvent.send ⟨"GET", "https://example.org/",
          [("Content-Type", "application/json"), ("Accept", "text/plain")], none⟩]) ∧
    (∃ r, post_bytes_to_file sampleConstants networkUp FlipperHTTP.construct emptyFileSystem
        "https://example.org/" "ping" sampleKeys sampleValues ((2 : Nat) : Int) = some r ∧
      SentWith sampleKeys sampleValues 2 r.2.1) :=
  ⟨by decide, by decide,
    (header_operations_carry_headers sampleConstants networkUp FlipperHTTP.construct
      emptyFileSystem "https://example.org/" "ping" sampleKeys sampleValues 2
      (by decide) (by decide) (by decide)).2.2.2.2.2⟩

/-- Claim C6: for every command line that starts with no verb of the vocabulary, one
iteration of `loop` emits the defined error response and nothing else, and leaves the
wireless link, the object (so `loadedSSID` and `loadedPassword`) and the file system
(so the persisted record) unchanged; the only change on the LED is the action flash,
shown when the LED is in use. -/
theorem unrecognized_command_frame (P : Protocol) (line : String) (b : Bridge)
    (h : ∀ e ∈ P.vocabulary, startsWith line e.verb = false) :
    (loop P line b).serialOut = b.serialOut ++ [P.unrecognized] ∧
    (loop P line b).WiFi = b.WiFi ∧
    (loop P line b).self = b.self ∧
    (loop P line b).fs = b.fs ∧
    (loop P line b).ledTrace =
      b.ledTrace ++ (if b.self.useLED then [(LedPattern.ActionFlash, 250)] else []) := by
  have hm := matchVerb_none P.vocabulary line h
  simp only [loop, hm, ledAction]
  cases hu : b.self.useLED <;> simp

/-- Claim C6 on the line `HELLO`, which starts with neither verb of the sample
protocol. -/
theorem unrecognized_command_frame_witness :
    (∀ e ∈ sampleProtocol.vocabulary, startsWith "HELLO" e.verb = false) ∧
    (loop sampleProtocol "HELLO" sampleBridge).serialOut = ["[ERROR] Unknown command."] ∧
    (loop sampleProtocol "HELLO" sampleBridge).WiFi = linkDown ∧
    (loop sampleProtocol "HELLO" sampleBridge).self = FlipperHTTP.construct ∧
    (loop sampleProtocol "HELLO" sampleBridge).fs = sampleBridge.fs ∧
    (loop sampleProtocol "HELLO" sampleBridge).ledTrace = [(LedPattern.ActionFlash, 250)] :=
  ⟨by decide, unrecognized_command_frame sampleProtocol "HELLO" sampleBridge (by decide)⟩

/-- Claim C7: called while `isConnectedToWifi` is false, each of `get`, `post`, `put` and
`delete_request`, without headers and with a header set, returns the failure sentinel
and does nothing on the network: no attempt to join, no request sent.  It is the same
sentinel that each of them returns when the link is up and the transport fails. -/
theorem requests_fail_with_sentinel_when_disconnected (K : Constants)
    (net failing : Network) (self : FlipperHTTP) (url payload : String)
    (headerKeys headerValues : List String) (headerSize : Int)
    (hs : List (String × String))
    (hset : headerSet headerKeys headerValues headerSize = some hs)
    (hdown : (isConnectedToWifi K.WL_CONNECTED net.WiFi self).1 = false)
    (hup : (isConnectedToWifi K.WL_CONNECTED failing.WiFi self).1 = true)
    (hfail : ∀ req, failing.transport req = none) :
    (get K net self url = (K.failureSentinel, []) ∧
      post K net self url payload = (K.failureSentinel, []) ∧
      put K net self url payload = (K.failureSentinel, []) ∧
      delete_request K net self url payload = (K.failureSentinel, []) ∧
      get_with_headers K net self url headerKeys headerValues headerSize
        = some (K.failureSentinel, []) ∧
      post_with_headers K net self url payload headerKeys headerValues headerSize
        = some (K.failureSentinel, []) ∧
      put_with_headers K net self url payload headerKeys headerValues headerSize
        = some (K.failureSentinel, []) ∧
      delete_request_with_headers K net self url payload headerKeys headerValues headerSize
        = some (K.failureSentinel, [])) ∧
    ((get K failing self url).1 = K.failureSentinel ∧
      (post K failing self url payload).1 = K.failureSentinel ∧
      (put K failing self url payload).1 = K.failureSentinel ∧
      (delete_request K failing self url payload).1 = K.failureSentinel ∧
      (get_with_headers K failing self url headerKeys headerValues headerSize).map Prod.fst
        = some K.failureSentinel ∧
      (post_with_headers K failing self url payload headerKeys headerValues headerSize).map
        Prod.fst = some K.failureSentinel ∧
      (put_with_headers K failing self url payload headerKeys headerValues headerSize).map
        Prod.fst = some K.failureSentinel ∧
      (delete_request_with_headers K failing self url payload headerKeys headerValues
        headerSize).map Prod.fst = some K.failureSentinel) := by
  have hd : ∀ req, perform K net self req = (K.failureSentinel, []) := by
    intro req
    unfold perform
    rw [hdown]
    rfl
  have hf : ∀ req, (perform K failing self req).1 = K.failureSentinel := by
    intro req
    unfold perform
    rw [hup, hfail req]
    rfl
  simp only [get, post, put, delete_request, get_with_headers, post_with_headers,
    put_with_headers, delete_request_with_headers, hset, Option.map_some', hd, hf]
  simp

/-- Claim C7 on a fresh object, a network whose link is down and a network whose
transport fails. -/
theorem requests_fail_with_sentinel_when_disconnected_witness :
    (headerSet sampleKeys sampleValues 2
        = some [("Content-Type", "application/json"), ("Accept", "text/plain")] ∧
      (isConnectedToWifi sampleConstants.WL_CONNECTED networkDown.WiFi
        FlipperHTTP.construct).1 = false ∧
      (isConnectedToWifi sampleConstants.WL_CONNECTED networkFailing.WiFi
        FlipperHTTP.construct).1 = true ∧
      (∀ req, networkFailing.transport req = none)) ∧
    get sampleConstants networkDown FlipperHTTP.construct "https://example.org/"
      = (sampleConstants.failureSentinel, []) ∧
    (put_with_headers sampleConstants networkFailing FlipperHTTP.construct
        "https://example.org/" "ping" sampleKeys sampleValues 2).map Prod.fst
      = some sampleConstants.failureSentinel :=
  ⟨⟨by decide, by decide, by decide, fun _ => rfl⟩,
    (requests_fail_with_sentinel_when_disconnected sampleConstants networkDown
      networkFailing FlipperHTTP.construct "https://example.org/" "ping" sampleKeys
      sampleValues 2 [("Content-Type", "application/json"), ("Accept", "text/plain")]
      (by decide) (by decide) (by decide) (fun _ => rfl)).1.1,
    (requests_fail_with_sentinel_when_disconnected sampleConstants networkDown
      networkFailing FlipperHTTP.construct "https://example.org/" "ping" sampleKeys
      sampleValues 2 [("Content-Type", "application/json"), ("Accept", "text/plain")]
      (by decide) (by decide) (by decide) (fun _ => rfl)).2.2.2.2.2.2.2.1⟩

end FlipperHTTPPico2W
